import Mathlib

/-!
Shallow embedding of `client.go` from integration-system/golang-socketio:
the socket.io Client connection state machine, its builder, the
reconnection supervisor and the URL helper.

Modelling conventions:
* `time.Duration` is an integer number of nanoseconds (`Int`).
* A Go `chan bool` used as the reconnect signal is modelled by its
  lifecycle state (`nil`, allocated-and-open, closed); `close` on a nil or
  already-closed channel is the Go runtime panic, modelled with `Except`.
* Goroutine spawns (`go ...`) are modelled by appending task identifiers
  to a task list; the tasks' own bodies are driven by explicit oracles.
* The transport (`transport.Transport`) is external to the repository; its
  `Connect` is passed to `Dial` explicitly as a function
  `String → Option Conn × Option Err`, matching Go's `(conn, err)` pair
  return (note both components are always assigned).
* Callback fields (`OnReconnectionError`, `onDisconnection`, the builder's
  `onSubError`) are modelled by presence flags, and their invocations are
  recorded in explicit traces, so that "called exactly N times with these
  arguments" is a statement about a trace.
-/

namespace GoSocketio

/-- Go `time.Duration`: int64 nanoseconds. -/
abbrev Duration := Int

/-- An abstract transport connection handle (`transport.Connection`). -/
abbrev Conn := Nat

/-- An abstract Go `error` value; the values carried are always non-nil
(a nil Go error is the `none` of the surrounding `Option`). -/
abbrev Err := String

/-- `defaultReconnectionTimeout = 3 * time.Second` from client.go. -/
def defaultReconnectionTimeout : Duration := 3 * 1000000000

/-- `webSocketProtocol` constant from client.go. -/
def webSocketProtocol : String := "ws://"

/-- `webSocketSecureProtocol` constant from client.go. -/
def webSocketSecureProtocol : String := "wss://"

/-- `socketioUrl` constant from client.go. -/
def socketioUrl : String := "/socket.io/?EIO=3&transport=websocket"

/-- Lifecycle state of the Go channel `reconnectChannel chan bool`:
the zero value `nil`, allocated by `make`, or closed by `close`. -/
inductive ChanState
  | nilChan
  | openChan
  | closedChan
  deriving DecidableEq, Repr

/-- Go runtime panics that channel misuse can raise. -/
inductive GoPanic
  | closeOfNilChannel
  | closeOfClosedChannel
  | sendOnClosedChannel
  deriving DecidableEq, Repr

/-- Identifiers of the long-running goroutines this core spawns:
the three Channel pumps started by `Dial` and the reconnection
supervisor started by `runReconnectionTask`. -/
inductive PumpTask
  | inLoop
  | outLoop
  | pinger
  | supervisor
  deriving DecidableEq, Repr

/-- `ReconnectionPolicy` from client.go.  The `OnReconnectionError`
callback is modelled by its presence (`true` = non-nil handler installed);
its invocations are recorded in supervisor traces. -/
structure ReconnectionPolicy where
  Enable : Bool
  ReconnectionTimeout : Duration
  OnReconnectionError : Bool
  deriving DecidableEq, Repr

/-- The `Client` struct from client.go, together with the fields of its
embedded `Channel` collaborator that this core reads or writes
(`conn`, aliveness, the `onDisconnection` callback slot, the registered
event names).  `isOpen` embeds the Go field `open` (a Lean keyword).
The transport factory `tr` is not stored but passed to `Dial` explicitly,
keeping the state decidable. -/
structure Client where
  conn : Option Conn
  alive : Bool
  isOpen : Bool
  reconnectChannel : ChanState
  url : String
  rp : ReconnectionPolicy
  onDisconnectionSet : Bool
  handlers : List String
  tasks : List PumpTask
  deriving DecidableEq, Repr

/-- `clientBuilder` from client.go: wraps the Client being configured. -/
structure ClientBuilderSt where
  client : Client
  deriving DecidableEq, Repr

/-- `NewClientBuilder` from client.go: a zero-valued Client with the
default transport and a disabled reconnection policy.  Go zero values:
`open = false`, `reconnectChannel = nil`, `url = ""`. -/
def NewClientBuilder : ClientBuilderSt :=
  { client :=
      { conn := none
        alive := false
        isOpen := false
        reconnectChannel := ChanState.nilChan
        url := ""
        rp := { Enable := false, ReconnectionTimeout := 0, OnReconnectionError := false }
        onDisconnectionSet := false
        handlers := []
        tasks := [] } }

/-- `clientBuilder.EnableReconnection` from client.go. -/
def clientBuilder.EnableReconnection (cb : ClientBuilderSt) : ClientBuilderSt :=
  { cb with client := { cb.client with rp := { cb.client.rp with Enable := true } } }

/-- `clientBuilder.ReconnectionTimeout` from client.go. -/
def clientBuilder.ReconnectionTimeout (cb : ClientBuilderSt) (timeout : Duration) :
    ClientBuilderSt :=
  { cb with client := { cb.client with rp := { cb.client.rp with ReconnectionTimeout := timeout } } }

/-- `clientBuilder.OnReconnectionError` from client.go: installs the
redial-error handler (presence flag in the model). -/
def clientBuilder.OnReconnectionError (cb : ClientBuilderSt) : ClientBuilderSt :=
  { cb with client := { cb.client with rp := { cb.client.rp with OnReconnectionError := true } } }

/-- Modelled from the spec: the Channel collaborator's handler registry
(`registerHandler(event, handler) -> error`, the `methods.On` call that
client.go forwards to); its code is not part of client.go.  The
registration outcome is supplied as an oracle `regResult` (`none` =
success, `some err` = the non-nil registration error); on success the
event name is recorded in the registry. -/
def registerHandler (c : Client) (event : String) (regResult : Option Err) :
    Client × Option Err :=
  match regResult with
  | none => ({ c with handlers := c.handlers ++ [event] }, none)
  | some err => (c, some err)

/-- `clientBuilder.On` from client.go: forwards to the registry; when the
registration fails and an `onSubError` callback was supplied, the callback
is invoked with the event name and the error.  Invocations of
`onSubError` are returned as a trace; the builder itself is returned for
chaining. -/
def clientBuilder.On (cb : ClientBuilderSt) (event : String) (regResult : Option Err)
    (onSubErrorSet : Bool) : ClientBuilderSt × List (String × Err) :=
  let r := registerHandler cb.client event regResult
  match r.2 with
  | some err =>
      ({ cb with client := r.1 }, if onSubErrorSet then [(event, err)] else [])
  | none => ({ cb with client := r.1 }, [])

/-- `Client.runReconnectionTask` (setup part) from client.go: allocates
`reconnectChannel`, installs the `onDisconnection` callback, and spawns
the supervisor goroutine (the goroutine's body is modelled by
`superviseLoop` below). -/
def runReconnectionTask (c : Client) : Client :=
  { c with
      reconnectChannel := ChanState.openChan
      onDisconnectionSet := true
      tasks := c.tasks ++ [PumpTask.supervisor] }

/-- Modelled from the spec: `Channel.initChannel`, called by
`BuildToConnect`, initialises the Channel collaborator (its code is not
part of client.go): the connection handle is absent and the channel not
alive. -/
def initChannel (c : Client) : Client :=
  { c with conn := none, alive := false }

/-- `clientBuilder.BuildToConnect` from client.go: initialises the
Channel, starts the reconnection supervisor iff the policy enables it,
and stores the target URL.  The Client is not yet connected. -/
def BuildToConnect (cb : ClientBuilderSt) (targetUrl : String) : Client :=
  let c := initChannel cb.client
  let c := if c.rp.Enable then runReconnectionTask c else c
  { c with url := targetUrl }

/-- `Client.Dial` from client.go, with the transport factory `tr`
passed explicitly.  Mirrors the Go multiple assignment
`c.conn, err = c.tr.Connect(c.url)`: the `conn` field receives the first
component of the pair unconditionally, before the error check.  On
success the Channel is marked alive, the three pump goroutines are
spawned, and `open` is set. -/
def Dial (tr : String → Option Conn × Option Err) (c : Client) : Client × Option Err :=
  let r := tr c.url
  let c1 := { c with conn := r.1 }
  match r.2 with
  | some err => (c1, some err)
  | none =>
      let c2 := { c1 with alive := true }
      let c3 := { c2 with
        tasks := c2.tasks ++ [PumpTask.inLoop, PumpTask.outLoop, PumpTask.pinger] }
      ({ c3 with isOpen := true }, none)

/-- Go `close(ch)` on the reconnect channel: panics on a nil channel or
an already-closed channel, otherwise marks it closed. -/
def closeChan : ChanState → Except GoPanic ChanState
  | ChanState.nilChan => Except.error GoPanic.closeOfNilChannel
  | ChanState.closedChan => Except.error GoPanic.closeOfClosedChannel
  | ChanState.openChan => Except.ok ChanState.closedChan

/-- Modelled from the spec: `closeChannel(&c.Channel, &c.methods)` tears
down the Channel collaborator's pumps and marks it not alive (its code is
not part of client.go). -/
def closeChannel (c : Client) : Client :=
  { c with
      alive := false
      tasks := c.tasks.filter (fun t => t = PumpTask.supervisor) }

/-- `Client.Close` from client.go: under the lock, when `open` it clears
`open`, closes `reconnectChannel` (a Go `close`, which panics when the
channel is nil — reconnection disabled — or already closed), then tears
down the Channel.  When not `open` it does nothing.  An `Except.error`
models the Go runtime panic terminating the call. -/
def Close (c : Client) : Except GoPanic Client :=
  if c.isOpen then
    match closeChan c.reconnectChannel with
    | Except.error p => Except.error p
    | Except.ok ch => Except.ok (closeChannel { c with isOpen := false, reconnectChannel := ch })
  else
    Except.ok c

/-- Observable actions of the reconnection supervisor goroutine:
the sleep before each redial, the `Dial` attempt itself, and an
invocation of the `OnReconnectionError` callback with a (non-nil)
error value. -/
inductive SupAction
  | sleep (d : Duration)
  | dialAttempt
  | onError (e : Err)
  deriving DecidableEq, Repr

/-- The supervisor's inner `for !connected` retry loop from
`runReconnectionTask`: on each iteration it computes the timeout
(substituting `defaultReconnectionTimeout` when the configured one is
non-positive), sleeps, redials, and on failure reports the error to the
callback when one is installed.  Successive `Dial` outcomes are supplied
by the oracle list `outcomes` (each entry is the transport's `(conn, err)`
pair for that attempt); the loop exits at the first successful attempt. -/
def retryLoop (c : Client) : List (Option Conn × Option Err) → Client × List SupAction
  | [] => (c, [])
  | r :: rest =>
      let t0 := c.rp.ReconnectionTimeout
      let timeout := if t0 ≤ 0 then defaultReconnectionTimeout else t0
      let d := Dial (fun _ => r) c
      match d.2 with
      | some e =>
          let errActs := if c.rp.OnReconnectionError then [SupAction.onError e] else []
          let rec' := retryLoop d.1 rest
          (rec'.1, SupAction.sleep timeout :: SupAction.dialAttempt :: errActs ++ rec'.2)
      | none => (d.1, [SupAction.sleep timeout, SupAction.dialAttempt])

/-- One event delivered to the supervisor's blocking read of
`reconnectChannel`: either a signal (carrying that reconnection cycle's
oracle of `Dial` outcomes) or a read from the closed channel. -/
inductive ChanEvent
  | signal (cycle : List (Option Conn × Option Err))
  | closedRead

/-- The supervisor goroutine's outer `for` loop from
`runReconnectionTask`: blocks on `reconnectChannel`; a closed-channel
read returns from the goroutine; a signal runs one inner retry cycle and
loops. -/
def superviseLoop (c : Client) : List ChanEvent → Client × List SupAction
  | [] => (c, [])
  | ChanEvent.closedRead :: _ => (c, [])
  | ChanEvent.signal cycle :: rest =>
      let r := retryLoop c cycle
      let r' := superviseLoop r.1 rest
      (r'.1, r.2 ++ r'.2)

/-- The `onDisconnection` callback installed by `runReconnectionTask`:
`if c.open { c.reconnectChannel <- true }` — returns the send it performs
into `reconnectChannel`, if any. -/
def onDisconnectionCallback (c : Client) : Option Unit :=
  if c.isOpen then some () else none

/-- Modelled from the spec: the Channel collaborator invokes the
registered disconnect callback exactly once per transport-level
disconnect event, and does nothing when no callback is registered (its
dispatch code is not part of client.go).  The callback body itself is
from client.go (`onDisconnectionCallback`).  The result is the list of
sends into `reconnectChannel` that the disconnect event produces. -/
def dispatchDisconnect (c : Client) : List Unit :=
  if c.onDisconnectionSet then
    match onDisconnectionCallback c with
    | some u => [u]
    | none => []
  else []

/-- `GetUrl` from client.go.  The Go `map[string]string` is modelled as
an association list in iteration order; `strconv.Itoa` is integer
decimal printing. -/
def GetUrl (host : String) (port : Int) (secure : Bool)
    (params : List (String × String)) : String :=
  let scheme := if secure then webSocketSecureProtocol else webSocketProtocol
  let connectionString := scheme ++ host ++ ":" ++ toString port ++ socketioUrl
  if 0 < params.length then
    params.foldl (fun acc kv => acc ++ "&" ++ kv.1 ++ "=" ++ kv.2) connectionString
  else connectionString

/-- Spec-shaped description of the query-parameter suffix: each key/value
pair of the mapping contributes exactly one `&key=value` segment, in
order, and an empty mapping contributes nothing.  Used to state the URL
builder claim against `GetUrl`. -/
def paramSuffix : List (String × String) → String
  | [] => ""
  | kv :: rest => "&" ++ kv.1 ++ "=" ++ kv.2 ++ paramSuffix rest

/-- The subsequence of `OnReconnectionError` invocations in a supervisor
trace, with the error each one was given. -/
def onErrorTrace (acts : List SupAction) : List Err :=
  acts.filterMap fun a =>
    match a with
    | SupAction.onError e => some e
    | _ => none

/-- A Client built through the public pipeline with reconnection left
disabled (`NewClientBuilder` then `BuildToConnect`):
its `reconnectChannel` is the Go zero value nil. -/
def c1Built : Client := BuildToConnect NewClientBuilder "ws://h:80/socket.io/"

/-- `c1Built` after a successful `Dial`, so `open = true`. -/
def c1Dialed : Client := (Dial (fun _ => (some 1, none)) c1Built).1

/-- A Client holding a stale connection handle, as after a reported
disconnect: used for the failed-`Dial` claims. -/
def c4Client : Client :=
  { NewClientBuilder.client with conn := some 5, alive := true, isOpen := true }

/-- A Client with a non-positive configured retry delay, used as a
concrete input to the supervisor-delay claims. -/
def c8Client : Client := { NewClientBuilder.client with isOpen := false }

/-- Joint state of the disconnect callback and a concurrent `Close`:
the Client's `open` flag and `reconnectChannel`, a program counter for
each thread, and whether a send has hit the closed channel (the Go
runtime panic `send on closed channel`).  The callback takes no lock, so
its read of `open` and its channel send are separate steps; `Close` holds
`c.lock` for its whole body, so it is one atomic step. -/
structure RaceState where
  isOpen : Bool
  ch : ChanState
  cbPC : Nat
  closerPC : Nat
  sendAfterClose : Bool
  deriving DecidableEq, Repr

/-- The two threads of the race: the `onDisconnection` callback and the
caller running `Close`. -/
inductive Thread
  | cb
  | closer
  deriving DecidableEq, Repr

/-- One interleaving step.  Callback (from `runReconnectionTask`):
step 0 evaluates `c.open` without the lock (skipping the send when
false); step 1 performs `c.reconnectChannel <- true`, which on a closed
channel is the fatal send.  Closer: the body of `Close` under the lock —
when `open`, clears `open` and closes the channel, atomically. -/
def raceStep (t : Thread) (s : RaceState) : RaceState :=
  match t with
  | Thread.cb =>
      if s.cbPC = 0 then
        if s.isOpen then { s with cbPC := 1 } else { s with cbPC := 2 }
      else if s.cbPC = 1 then
        if s.ch = ChanState.closedChan then { s with cbPC := 2, sendAfterClose := true }
        else { s with cbPC := 2 }
      else s
  | Thread.closer =>
      if s.closerPC = 0 then
        if s.isOpen then
          { s with isOpen := false, ch := ChanState.closedChan, closerPC := 1 }
        else { s with closerPC := 1 }
      else s

/-- Run a schedule (a list of thread choices) from a state. -/
def raceRun (sched : List Thread) (s : RaceState) : RaceState :=
  sched.foldl (fun st t => raceStep t st) s

/-- The state right before the race: the Client is open with an
allocated reconnect channel, both threads about to run. -/
def raceInit : RaceState :=
  { isOpen := true, ch := ChanState.openChan, cbPC := 0, closerPC := 0,
    sendAfterClose := false }

/-! ## Theorems -/

/-- The query-parameter fold of `GetUrl` appends exactly the
`paramSuffix` of the mapping to whatever string it starts from. -/
theorem foldl_params_eq (params : List (String × String)) (s : String) :
    params.foldl (fun acc kv => acc ++ "&" ++ kv.1 ++ "=" ++ kv.2) s =
      s ++ paramSuffix params := by
  induction params generalizing s with
  | nil => simp [paramSuffix, String.append_empty]
  | cons kv rest ih =>
      rw [List.foldl_cons, ih, paramSuffix]
      simp [String.append_assoc]

/-- Claim C3: for every host, port, secure flag and parameter mapping,
`GetUrl` returns the `ws://` (insecure) or `wss://` (secure) scheme,
then host, ":", the decimal port and the socket.io path-and-query, with
each key/value pair of the mapping appended exactly once as
`&key=value` in iteration order, and nothing else when the mapping is
empty (`paramSuffix [] = ""`). -/
theorem GetUrl_spec (host : String) (port : Int) (secure : Bool)
    (params : List (String × String)) :
    GetUrl host port secure params =
      (if secure then "wss://" else "ws://") ++ host ++ ":" ++ toString port ++
        "/socket.io/?EIO=3&transport=websocket" ++ paramSuffix params := by
  cases params with
  | nil =>
      simp [GetUrl, webSocketProtocol, webSocketSecureProtocol, socketioUrl,
        paramSuffix, String.append_empty]
  | cons kv rest =>
      simp only [GetUrl, List.length_cons, Nat.succ_pos, if_true]
      rw [foldl_params_eq]
      cases secure <;>
        simp [webSocketProtocol, webSocketSecureProtocol, socketioUrl, String.append_assoc]

/-- Claim C1 (code bug): a Client built with reconnection disabled and
then successfully dialed is open, yet `Close` executes
`close(c.reconnectChannel)` on the nil channel and panics — the claim
says `Close` never panics for every configuration, including
reconnection disabled. -/
theorem Close_nil_channel_panics :
    c1Dialed.isOpen = true ∧ c1Dialed.rp.Enable = false ∧
    c1Dialed.reconnectChannel = ChanState.nilChan ∧
    Close c1Dialed = Except.error GoPanic.closeOfNilChannel := by
  refine ⟨rfl, rfl, rfl, ?_⟩
  rfl

/-- Claim C4 (counterexample): a failed `Dial` does not leave the stored
connection unchanged — the Go multiple assignment
`c.conn, err = c.tr.Connect(c.url)` overwrites `conn` with the factory's
first return value (nil here) before the error check, so a client that
held `some 5` holds `none` after the failed dial. -/
theorem Dial_failure_overwrites_conn :
    c4Client.conn = some 5 ∧
    (Dial (fun _ => (none, some "connection refused")) c4Client).2 =
      some "connection refused" ∧
    (Dial (fun _ => (none, some "connection refused")) c4Client).1.conn = none := by
  refine ⟨rfl, rfl, rfl⟩

/-- Claim C4 (amended): when the transport factory fails, `Dial` returns
that error unchanged and leaves `open`, the Channel's aliveness, the
running tasks, the url and the policy unchanged — but the stored
connection is overwritten with the connection value the factory returned
alongside the error (typically nil). -/
theorem Dial_failure_state (tr : String → Option Conn × Option Err) (c : Client)
    (e : Err) (h : (tr c.url).2 = some e) :
    Dial tr c = ({ c with conn := (tr c.url).1 }, some e) := by
  simp [Dial, h]

/-- Witness for `Dial_failure_state` at a concrete client and factory. -/
theorem Dial_failure_state_witness :
    Dial (fun _ => (none, some "refused")) c4Client =
      ({ c4Client with conn := none }, some "refused") :=
  Dial_failure_state (fun _ => (none, some "refused")) c4Client "refused" rfl

/-- Claim C5: when the transport factory succeeds, `Dial` stores the new
connection, marks the Channel alive, spawns the three pump goroutines
(inbound `inLoop`, outbound `outLoop`, heartbeat `pinger`), sets
`open = true`, and returns no error. -/
theorem Dial_success_state (tr : String → Option Conn × Option Err) (c : Client)
    (co : Option Conn) (h : tr c.url = (co, none)) :
    Dial tr c =
      ({ c with
          conn := co
          alive := true
          tasks := c.tasks ++ [PumpTask.inLoop, PumpTask.outLoop, PumpTask.pinger]
          isOpen := true }, none) := by
  simp [Dial, h]

/-- Witness for `Dial_success_state` at a freshly built client. -/
theorem Dial_success_state_witness :
    Dial (fun _ => (some 7, none)) (BuildToConnect NewClientBuilder "u") =
      ({ BuildToConnect NewClientBuilder "u" with
          conn := some 7
          alive := true
          tasks := (BuildToConnect NewClientBuilder "u").tasks ++
            [PumpTask.inLoop, PumpTask.outLoop, PumpTask.pinger]
          isOpen := true }, none) :=
  Dial_success_state (fun _ => (some 7, none)) (BuildToConnect NewClientBuilder "u")
    (some 7) rfl

/-- A sleep action absorbs into `onErrorTrace`. -/
theorem onErrorTrace_sleep (d : Duration) (l : List SupAction) :
    onErrorTrace (SupAction.sleep d :: l) = onErrorTrace l := by
  simp [onErrorTrace]

/-- A dial-attempt action absorbs into `onErrorTrace`. -/
theorem onErrorTrace_dial (l : List SupAction) :
    onErrorTrace (SupAction.dialAttempt :: l) = onErrorTrace l := by
  simp [onErrorTrace]

/-- An `onError` action contributes its error to `onErrorTrace`. -/
theorem onErrorTrace_onError (e : Err) (l : List SupAction) :
    onErrorTrace (SupAction.onError e :: l) = e :: onErrorTrace l := by
  simp [onErrorTrace]

/-- `onErrorTrace` distributes over trace concatenation. -/
theorem onErrorTrace_append (l1 l2 : List SupAction) :
    onErrorTrace (l1 ++ l2) = onErrorTrace l1 ++ onErrorTrace l2 := by
  simp [onErrorTrace]

/-- Claim C2: in one reconnection cycle whose `Dial` attempts fail with
the errors in `fails` and then succeed, the inner retry loop invokes the
`OnReconnectionError` callback exactly once per failed attempt, with that
attempt's (non-nil) error, in order — and not at all when the callback
is unset — and the succeeding attempt leaves the Client with
`open = true`, the loop returning to block on the next signal. -/
theorem retryLoop_onError_per_failure (c : Client) (fails : List Err) (k : Conn) :
    onErrorTrace
        (retryLoop c (fails.map (fun e => ((none : Option Conn), some e)) ++
          [(some k, none)])).2 =
      (if c.rp.OnReconnectionError then fails else []) ∧
    (retryLoop c (fails.map (fun e => ((none : Option Conn), some e)) ++
      [(some k, none)])).1.isOpen = true := by
  induction fails generalizing c with
  | nil => simp [retryLoop, Dial, onErrorTrace]
  | cons e rest ih =>
      have h := ih { c with conn := none }
      by_cases hcb : c.rp.OnReconnectionError = true
      · simp [retryLoop, Dial, hcb, onErrorTrace_sleep, onErrorTrace_dial,
          onErrorTrace_onError, onErrorTrace_append, h.1, h.2]
      · simp only [Bool.not_eq_true] at hcb
        simp [retryLoop, Dial, hcb, onErrorTrace_sleep, onErrorTrace_dial,
          onErrorTrace_onError, onErrorTrace_append, h.1, h.2]

/-- Claim C6: once the supervisor's blocking read returns from the
closed `reconnectChannel` (which is what every read after `Close` does),
the goroutine returns: whatever would come afterwards, no sleep, no
`Dial` attempt and no `OnReconnectionError` invocation is ever emitted
again, and the Client state is untouched. -/
theorem supervisor_halts_on_closed_read (c : Client) (rest : List ChanEvent) :
    superviseLoop c (ChanEvent.closedRead :: rest) = (c, []) := rfl

/-- Claim C7: building a Client whose policy leaves reconnection
disabled does not start a supervisor, install a disconnect callback or
allocate the reconnect channel (those fields keep their prior values),
and a disconnect event dispatched to such a Client produces no signal —
hence no redial and no transport-factory call follows it. -/
theorem disabled_reconnection_no_redial (cb : ClientBuilderSt) (u : String)
    (hEnable : cb.client.rp.Enable = false) :
    (BuildToConnect cb u).onDisconnectionSet = cb.client.onDisconnectionSet ∧
    (BuildToConnect cb u).tasks = cb.client.tasks ∧
    (BuildToConnect cb u).reconnectChannel = cb.client.reconnectChannel ∧
    (cb.client.onDisconnectionSet = false →
      dispatchDisconnect (BuildToConnect cb u) = []) := by
  refine ⟨?_, ?_, ?_, fun hcb => ?_⟩ <;>
    simp [BuildToConnect, initChannel, hEnable, dispatchDisconnect, *]

/-- Witness for `disabled_reconnection_no_redial`: the freshly created
builder has reconnection disabled and no callback, and the built Client
ignores a disconnect. -/
theorem disabled_reconnection_no_redial_witness :
    dispatchDisconnect (BuildToConnect NewClientBuilder "u") = [] :=
  (disabled_reconnection_no_redial NewClientBuilder "u" rfl).2.2.2 rfl

/-- Claim C8: every sleep the retry loop performs uses the configured
`ReconnectionTimeout` when it is positive and substitutes the default of
3 seconds when it is zero or negative; the substitution is recomputed at
each attempt from the stored policy, which the loop never modifies. -/
theorem retryLoop_sleep_delay (c : Client) (outcomes : List (Option Conn × Option Err)) :
    (∀ d : Duration, SupAction.sleep d ∈ (retryLoop c outcomes).2 →
        d = (if c.rp.ReconnectionTimeout ≤ 0 then defaultReconnectionTimeout
             else c.rp.ReconnectionTimeout)) ∧
    (retryLoop c outcomes).1.rp = c.rp := by
  induction outcomes generalizing c with
  | nil => simp [retryLoop]
  | cons r rest ih =>
      obtain ⟨co, er⟩ := r
      cases er with
      | none => simp [retryLoop, Dial]
      | some e =>
          have h := ih { c with conn := co }
          constructor
          · intro d hd
            by_cases hcb : c.rp.OnReconnectionError = true
            · simp [retryLoop, Dial, hcb] at hd
              rcases hd with hd | hd
              · exact hd
              · exact h.1 d hd
            · simp only [Bool.not_eq_true] at hcb
              simp [retryLoop, Dial, hcb] at hd
              rcases hd with hd | hd
              · exact hd
              · exact h.1 d hd
          · simp [retryLoop, Dial, h.2]

/-- Witness for `retryLoop_sleep_delay`: with a zero configured delay
and one failing attempt before success, the sleep recorded in the trace
is the default 3-second delay. -/
theorem retryLoop_sleep_delay_witness :
    SupAction.sleep (3 * 1000000000) ∈
      (retryLoop c8Client [(none, some "refused"), (some 1, none)]).2 ∧
    (3 * 1000000000 : Int) =
      (if c8Client.rp.ReconnectionTimeout ≤ 0 then defaultReconnectionTimeout
       else c8Client.rp.ReconnectionTimeout) :=
  ⟨by decide,
    (retryLoop_sleep_delay c8Client [(none, some "refused"), (some 1, none)]).1
      (3 * 1000000000) (by decide)⟩

/-- Claim C9 (counterexample): the callback's unlocked read of `open`
can happen before `Close` runs and its channel send after it — schedule
callback-check, then `Close`, then callback-send — and then the send
hits the already-closed `reconnectChannel` (Go: fatal
`send on closed channel`), refuting that no send can occur after the
close when the callback runs concurrently with `Close`. -/
theorem reconnect_send_after_close_race :
    (raceRun [Thread.cb, Thread.closer, Thread.cb] raceInit).sendAfterClose = true := rfl

/-- Claim C9 (amended): the no-send-after-close guarantee holds exactly
when the callback does not interleave with `Close`: started from any
state with the channel not yet closed, running `Close` to completion
first (the callback then sees `open = false` and skips the send) or
running the whole callback first (its send precedes the channel close)
never produces a send on the closed channel. -/
theorem reconnect_send_not_interleaved_safe (b : Bool) (ch : ChanState)
    (h : ch ≠ ChanState.closedChan) :
    (raceRun [Thread.closer, Thread.cb, Thread.cb]
        { isOpen := b, ch := ch, cbPC := 0, closerPC := 0,
          sendAfterClose := false }).sendAfterClose = false ∧
    (raceRun [Thread.cb, Thread.cb, Thread.closer]
        { isOpen := b, ch := ch, cbPC := 0, closerPC := 0,
          sendAfterClose := false }).sendAfterClose = false := by
  cases ch with
  | closedChan => exact absurd rfl h
  | nilChan => cases b <;> exact ⟨rfl, rfl⟩
  | openChan => cases b <;> exact ⟨rfl, rfl⟩

/-- Witness for `reconnect_send_not_interleaved_safe` at the state an
open Client with an allocated reconnect channel is actually in. -/
theorem reconnect_send_not_interleaved_safe_witness :
    (raceRun [Thread.closer, Thread.cb, Thread.cb] raceInit).sendAfterClose = false ∧
    (raceRun [Thread.cb, Thread.cb, Thread.closer] raceInit).sendAfterClose = false :=
  reconnect_send_not_interleaved_safe true ChanState.openChan (by decide)

/-- Claim C10: when handler registration fails, the builder's `On`
passes the event name and the error to the `onSubError` callback when
one was supplied and silently discards them when it is nil; in either
case no error is raised and the very same builder is returned, so
chaining continues. -/
theorem builder_On_subscribe_error (cb : ClientBuilderSt) (event : String) (err : Err)
    (b : Bool) :
    (clientBuilder.On cb event (some err) true).2 = [(event, err)] ∧
    (clientBuilder.On cb event (some err) false).2 = [] ∧
    (clientBuilder.On cb event (some err) b).1 = cb := by
  refine ⟨rfl, rfl, rfl⟩

end GoSocketio
